import Mathlib

set_option maxRecDepth 8000

/-!
Verification of the conversation-memory-augmented AI response pipeline of the
`support` ticketing application.  The definitions below are a shallow embedding
of the TypeScript source files `src/server/gemini.ts`, `src/server/storage.ts`
and `src/server/routes.ts` (the `POST /api/ai/chat` handler and its helpers).

Stateful parts (database tables, the remote generative backend) are made
explicit: database tables are lists of rows, the backend outcome is an
`Except Unit (Option String)` value (`.error ()` models a thrown transport or
API error, `.ok t` models a returned result whose `text` field is `t`, with
`none` standing for JavaScript `undefined`), and observable side effects of a
handler invocation (memory-store writes, prompts sent to the backend, FAQ-store
reads) are collected in the result structure.
-/

/-! ## Character-list helpers (JavaScript string primitives) -/

/-- Whitespace as matched by JavaScript `\s` on the characters that occur here
(taken to be space, tab, newline, carriage return, form feed). -/
def jsWs (c : Char) : Bool :=
  c = ' ' || c = '\t' || c = '\n' || c = '\r' || c = Char.ofNat 12

/-- JavaScript `String.prototype.trim` on a character list. -/
def listTrim (s : List Char) : List Char :=
  ((s.dropWhile jsWs).reverse.dropWhile jsWs).reverse

/-- JavaScript `String.prototype.trim`. -/
def strTrim (s : String) : String :=
  String.mk (listTrim s.data)

/-- Does `pat` occur at the head of `s`? -/
def startsWithChars : List Char → List Char → Bool
  | [], _ => true
  | _ :: _, [] => false
  | a :: as, b :: bs => a = b && startsWithChars as bs

/-- Does `pat` occur anywhere in `s` (contiguously)? -/
def hasSubChars (pat : List Char) : List Char → Bool
  | [] => startsWithChars pat []
  | c :: cs => startsWithChars pat (c :: cs) || hasSubChars pat cs

/-- `hasSubstring s pat` is JavaScript `s.includes(pat)`. -/
def hasSubstring (s pat : String) : Bool :=
  hasSubChars pat.data s.data

/-- The backtick character. -/
def tickChar : Char := Char.ofNat 96

/-- The characters of a ```` ```json ```` fence opener. -/
def fenceJsonPat : List Char := [tickChar, tickChar, tickChar, 'j', 's', 'o', 'n']

/-- The characters of a bare ```` ``` ```` fence. -/
def fenceTicksPat : List Char := [tickChar, tickChar, tickChar]

/-- Drop one leading newline if present (the `\n?` part of the fence regexes). -/
def dropOptNl : List Char → List Char
  | '\n' :: r => r
  | s => s

/-- Fuelled scan replacing every occurrence of `pat` followed by an optional
newline with nothing, left to right, exactly as the global regex replaces
`/```json\n?/g` and `/```\n?/g` do.  The fuel is always sufficient for
non-empty patterns since every step consumes at least one character. -/
def stripFenceAux (pat : List Char) : Nat → List Char → List Char
  | 0, s => s
  | _ + 1, [] => []
  | fuel + 1, c :: cs =>
    if startsWithChars pat (c :: cs) then
      stripFenceAux pat fuel (dropOptNl (List.drop pat.length (c :: cs)))
    else
      c :: stripFenceAux pat fuel cs

/-- Global replacement of `pat` plus optional trailing newline by nothing. -/
def stripFence (pat : List Char) (s : List Char) : List Char :=
  stripFenceAux pat s.length s

/-- The defensive unwrapping applied to raw model text before `JSON.parse`:
`text.replace(/```json\n?/g, '').replace(/```\n?/g, '').trim()`. -/
def cleanJsonChars (s : List Char) : List Char :=
  listTrim (stripFence fenceTicksPat (stripFence fenceJsonPat s))

/-! ## JSON values and `JSON.parse` -/

/-- JSON values as produced by JavaScript `JSON.parse`.  Numbers are kept as a
decimal mantissa and a power-of-ten exponent (JSON cannot produce `NaN` or
infinities); object fields are kept in textual order, with the lookup below
taking the last occurrence of a duplicated key, as JavaScript does. -/
inductive Json where
  | null
  | bool (b : Bool)
  | num (mant : Int) (exp10 : Int)
  | str (s : String)
  | arr (elems : List Json)
  | obj (fields : List (String × Json))

/-- Whitespace accepted between JSON tokens. -/
def jsonWs (c : Char) : Bool :=
  c = ' ' || c = '\t' || c = '\n' || c = '\r'

/-- Skip inter-token whitespace. -/
def skipWs : List Char → List Char
  | [] => []
  | c :: cs => if jsonWs c then skipWs cs else c :: cs

def isDigitC (c : Char) : Bool := '0' ≤ c && c ≤ '9'

/-- Split a longest digit run off the front. -/
def takeDigits : List Char → List Char × List Char
  | [] => ([], [])
  | c :: cs =>
    if isDigitC c then
      let (d, r) := takeDigits cs
      (c :: d, r)
    else ([], c :: cs)

def digitsToNat (ds : List Char) : Nat :=
  ds.foldl (fun n c => n * 10 + (c.toNat - 48)) 0

def hexVal (c : Char) : Option Nat :=
  if isDigitC c then some (c.toNat - 48)
  else if 'a' ≤ c && c ≤ 'f' then some (c.toNat - 97 + 10)
  else if 'A' ≤ c && c ≤ 'F' then some (c.toNat - 65 + 10)
  else none

/-- Parse the body of a JSON string (the opening quote already consumed),
returning the decoded characters and the rest of the input.  Strict JSON:
unescaped control characters are rejected, escapes are the JSON ones. -/
def parseStrBody : Nat → List Char → Option (List Char × List Char)
  | 0, _ => none
  | _ + 1, [] => none
  | fuel + 1, c :: cs =>
    if c = '"' then some ([], cs)
    else if c = '\\' then
      match cs with
      | [] => none
      | e :: cs2 =>
        let cont : Char → List Char → Option (List Char × List Char) :=
          fun ch rest =>
            (parseStrBody fuel rest).map (fun p => (ch :: p.1, p.2))
        if e = '"' then cont '"' cs2
        else if e = '\\' then cont '\\' cs2
        else if e = '/' then cont '/' cs2
        else if e = 'b' then cont (Char.ofNat 8) cs2
        else if e = 'f' then cont (Char.ofNat 12) cs2
        else if e = 'n' then cont '\n' cs2
        else if e = 'r' then cont '\r' cs2
        else if e = 't' then cont '\t' cs2
        else if e = 'u' then
          match cs2 with
          | h1 :: h2 :: h3 :: h4 :: cs3 =>
            match hexVal h1, hexVal h2, hexVal h3, hexVal h4 with
            | some a, some b, some c', some d =>
              cont (Char.ofNat (((a * 16 + b) * 16 + c') * 16 + d)) cs3
            | _, _, _, _ => none
          | _ => none
        else none
    else if c.toNat < 32 then none
    else (parseStrBody fuel cs).map (fun p => (c :: p.1, p.2))

/-- Parse a JSON number lexeme (sign, integer part without leading zeros,
optional fraction, optional exponent) into mantissa/exponent form. -/
def parseNum (s : List Char) : Option (Json × List Char) :=
  let (neg, s1) := match s with
    | '-' :: r => (true, r)
    | _ => (false, s)
  match takeDigits s1 with
  | ([], _) => none
  | (ds, r1) =>
    if 1 < ds.length ∧ ds.headD '0' = '0' then none
    else
      let (fds, r2, fracOk) := match r1 with
        | '.' :: r =>
          match takeDigits r with
          | ([], _) => ([], r1, false)
          | (fs, rr) => (fs, rr, true)
        | _ => ([], r1, true)
      if ¬ fracOk then none
      else
        let (expOk, expVal, r3) := match r2 with
          | 'e' :: r | 'E' :: r =>
            let (esign, r') := match r with
              | '+' :: rr => ((1 : Int), rr)
              | '-' :: rr => ((-1 : Int), rr)
              | _ => ((1 : Int), r)
            match takeDigits r' with
            | ([], _) => (false, (0 : Int), r2)
            | (es, rr) => (true, esign * (digitsToNat es : Int), rr)
          | _ => (true, (0 : Int), r2)
        if ¬ expOk then none
        else
          let mantNat : Nat := digitsToNat (ds ++ fds)
          let mant : Int := if neg then -(mantNat : Int) else (mantNat : Int)
          some (Json.num mant (expVal - (fds.length : Int)), r3)

mutual

/-- Fuelled recursive-descent parser for a JSON value; consumes leading
whitespace, returns the value and the unconsumed remainder. -/
def parseVal : Nat → List Char → Option (Json × List Char)
  | 0, _ => none
  | fuel + 1, s =>
    match skipWs s with
    | [] => none
    | c :: cs =>
      if c = 'n' then
        if startsWithChars ['u', 'l', 'l'] cs then
          some (Json.null, List.drop 3 cs)
        else none
      else if c = 't' then
        if startsWithChars ['r', 'u', 'e'] cs then
          some (Json.bool true, List.drop 3 cs)
        else none
      else if c = 'f' then
        if startsWithChars ['a', 'l', 's', 'e'] cs then
          some (Json.bool false, List.drop 4 cs)
        else none
      else if c = '"' then
        (parseStrBody fuel cs).map (fun p => (Json.str (String.mk p.1), p.2))
      else if c = '-' || isDigitC c then
        parseNum (c :: cs)
      else if c = '[' then
        match skipWs cs with
        | ']' :: r => some (Json.arr [], r)
        | s' => (parseElems fuel s').map (fun p => (Json.arr p.1, p.2))
      else if c = Char.ofNat 123 then
        match skipWs cs with
        | c2 :: r =>
          if c2 = Char.ofNat 125 then some (Json.obj [], r)
          else (parseMembers fuel (c2 :: r)).map (fun p => (Json.obj p.1, p.2))
        | [] => none
      else none

/-- Parse a non-empty comma-separated list of array elements up to `]`. -/
def parseElems : Nat → List Char → Option (List Json × List Char)
  | 0, _ => none
  | fuel + 1, s => do
    let (v, r) ← parseVal fuel s
    match skipWs r with
    | ',' :: r2 => do
      let (vs, r3) ← parseElems fuel r2
      pure (v :: vs, r3)
    | ']' :: r2 => pure ([v], r2)
    | _ => none

/-- Parse a non-empty comma-separated list of object members up to the closing
brace. -/
def parseMembers : Nat → List Char → Option (List (String × Json) × List Char)
  | 0, _ => none
  | fuel + 1, s =>
    match skipWs s with
    | '"' :: cs => do
      let (k, r) ← parseStrBody fuel cs
      match skipWs r with
      | ':' :: r2 => do
        let (v, r3) ← parseVal fuel r2
        match skipWs r3 with
        | ',' :: r4 => do
          let (kvs, r5) ← parseMembers fuel r4
          pure ((String.mk k, v) :: kvs, r5)
        | c :: r4 =>
          if c = Char.ofNat 125 then pure ([(String.mk k, v)], r4)
          else none
        | [] => none
      | _ => none
    | _ => none

end

/-- JavaScript `JSON.parse` on a character list: `none` models a thrown
`SyntaxError`.  The fuel `2 * length + 8` is sufficient because every two
units of fuel consume at least one input character. -/
def jsonParseChars (s : List Char) : Option Json :=
  match parseVal (2 * s.length + 8) s with
  | some (v, rest) => if skipWs rest = [] then some v else none
  | none => none

/-- JavaScript `JSON.parse` of a string. -/
def jsonParse (s : String) : Option Json :=
  jsonParseChars s.data

/-! ## JavaScript value helpers -/

/-- JavaScript `t || d` where `t` is a string-or-undefined (`response.text`):
`undefined` and the empty string are falsy. -/
def jsOrElseStr (t : Option String) (d : String) : String :=
  match t with
  | none => d
  | some s => if s = "" then d else s

/-- JavaScript truthiness of a JSON value. -/
def jsTruthy : Json → Bool
  | .null => false
  | .bool b => b
  | .num m _ => m != 0
  | .str s => s != ""
  | .arr _ => true
  | .obj _ => true

/-- Lookup of a key among object fields; the last occurrence wins, as for
JavaScript objects built by `JSON.parse` from duplicated keys. -/
def lookupLast : List (String × Json) → String → Option Json
  | [], _ => none
  | (k, x) :: rest, key =>
    match lookupLast rest key with
    | some w => some w
    | none => if k = key then some x else none

/-- JavaScript property access `v.key` on a non-null parsed value:
`undefined` (`none`) for a missing key or a non-object. -/
def jsGetField (v : Json) (key : String) : Option Json :=
  match v with
  | .obj fields => lookupLast fields key
  | _ => none

/-- Is this value exactly the boolean `false` (JavaScript `=== false`)? -/
def jsIsFalse : Json → Bool
  | .bool false => true
  | _ => false

/-- JavaScript `v.key === false` for a non-null `v`. -/
def jsFieldIsFalse (v : Json) (key : String) : Bool :=
  match jsGetField v key with
  | some j => jsIsFalse j
  | none => false

/-- JavaScript `x || d` where `x` is a field value-or-undefined. -/
def jsTruthyOrElse (x : Option Json) (d : Json) : Json :=
  match x with
  | none => d
  | some j => if jsTruthy j then j else d

/-! ## `src/server/gemini.ts` -/

/-- The argument record of `generateAIResponse` (interface
`ConversationContext`); an absent `faqKnowledge` field is `none`. -/
structure ConversationContext where
  userId : String
  message : String
  history : List (String × String)
  faqKnowledge : Option (List (String × String))

/-- The fixed persona preamble the prompt starts with. -/
def geminiPersona : String :=
  "You are a helpful AI support assistant for Mintrax AI platform. \nYou help users with their questions about the platform, troubleshooting, and general support.\nBe friendly, professional, and concise in your responses.\n"

/-- One numbered FAQ line: `${index + 1}. Q: ...\n   A: ...\n\n`. -/
def faqLine (idx : Nat) (faq : String × String) : String :=
  toString (idx + 1) ++ ". Q: " ++ faq.1 ++ "\n   A: " ++ faq.2 ++ "\n\n"

/-- The FAQ knowledge block: emitted only when `faqKnowledge` is present and
non-empty, exactly as the `if (context.faqKnowledge && context.faqKnowledge.length > 0)`
branch does. -/
def faqBlock (faqKnowledge : Option (List (String × String))) : String :=
  match faqKnowledge with
  | some faqs =>
    if 0 < faqs.length then
      "\nFAQ Knowledge Base:\n"
        ++ String.join (faqs.enum.map (fun p => faqLine p.1 p.2))
        ++ "Use this FAQ knowledge to answer user questions when relevant. If the user\x27s question matches any FAQ, provide that answer but in a natural, conversational way.\n\n"
    else ""
  | none => ""

/-- One rendered history exchange: `User: ...\nAssistant: ...\n\n`. -/
def renderTurn (e : String × String) : String :=
  "User: " ++ e.1 ++ "\nAssistant: " ++ e.2 ++ "\n\n"

/-- JavaScript `Array.prototype.slice(-n)` for `n > 0`: the suffix of the at
most `n` last elements. -/
def jsSliceLast (n : Nat) (l : List (String × String)) : List (String × String) :=
  l.drop (l.length - n)

/-- The conversation-history block: the last five exchanges rendered in list
order when the history is non-empty, the explicit marker otherwise. -/
def historyBlock (history : List (String × String)) : String :=
  if 0 < history.length then
    String.join ((jsSliceLast 5 history).map renderTurn)
  else
    "(No previous conversation)\n\n"

/-- The complete prompt `generateAIResponse` builds from its context, in the
exact concatenation order of the source. -/
def promptOfContext (ctx : ConversationContext) : String :=
  geminiPersona
    ++ faqBlock ctx.faqKnowledge
    ++ "\nPrevious conversation history:\n"
    ++ historyBlock ctx.history
    ++ "Current user message: " ++ ctx.message ++ "\n\nProvide a helpful response:"

/-- Fallback returned when the backend yields an empty or absent text. -/
def generationFallback : String :=
  "I apologize, but I couldn\x27t generate a response. Please try again."

/-- The opaque message of the re-raised generation error. -/
def generationErrorMsg : String :=
  "Failed to generate AI response. Please try again later."

/-- `generateAIResponse` after prompt construction: the backend is invoked
once on the composed prompt; a thrown backend error is re-raised as the
opaque generation error, an empty payload is substituted by the fallback. -/
def generateAIResponse (ctx : ConversationContext)
    (backend : Except Unit (Option String)) : Except String String :=
  match ctx, backend with
  | _, .error _ => .error generationErrorMsg
  | _, .ok t => .ok (jsOrElseStr t generationFallback)

/-- The error message thrown by `analyzePdfContent` when the backend call
itself fails. -/
def pdfErrorMsg : String :=
  "Failed to analyze PDF content. Please check the PDF URL and try again."

/-- `analyzePdfContent` after the backend call: clean the returned text, parse
it, keep an array result, degrade parse failures and non-arrays to `[]`; a
thrown backend error is re-raised. -/
def analyzePdfContent (pdfUrl : String)
    (backend : Except Unit (Option String)) : Except String (List Json) :=
  match pdfUrl, backend with
  | _, .error _ => .error pdfErrorMsg
  | _, .ok t =>
    let text := jsOrElseStr t "[]"
    match jsonParseChars (cleanJsonChars text.data) with
    | none => .ok []
    | some (Json.arr xs) => .ok xs
    | some _ => .ok []

/-- The default text substituted when the learner backend returns an empty
payload, `{ "shouldSave": false }` as a single-quoted literal. -/
def learnerDefaultText : String := "\x7b \"shouldSave\": false \x7d"

/-- `generateFaqFromConversation` after the backend call.  A parsed `null`
makes the `result.shouldSave` access throw a `TypeError`, which the inner
`catch` turns into `null`, exactly like a parse failure; on a backend error
the outer `catch` also returns `null`. -/
def generateFaqFromConversation (question answer : String)
    (backend : Except Unit (Option String)) : Option (Json × Json) :=
  match backend with
  | .error _ => none
  | .ok t =>
    let text := jsOrElseStr t learnerDefaultText
    match jsonParseChars (cleanJsonChars text.data) with
    | none => none
    | some Json.null => none
    | some v =>
      if jsFieldIsFalse v "shouldSave" then none
      else
        some (jsTruthyOrElse (jsGetField v "question") (Json.str question),
              jsTruthyOrElse (jsGetField v "answer") (Json.str answer))

/-! ## `src/server/storage.ts` -/

/-- A persisted row of the `userAiMemory` table (a MemoryTurn). -/
structure MemoryRow where
  userId : String
  message : String
  aiResponse : String
  createdAt : Nat
deriving DecidableEq

/-- The values handed to `createAiMemory` (the database fills `createdAt`). -/
structure InsertMemoryRow where
  userId : String
  message : String
  aiResponse : String
deriving DecidableEq

/-- The `orderBy(desc(userAiMemory.createdAt))` relation: newest first. -/
def memDescRel (a b : MemoryRow) : Prop := b.createdAt ≤ a.createdAt

instance : DecidableRel memDescRel := fun _ b => Nat.decLe b.createdAt _

instance : IsTotal MemoryRow memDescRel :=
  ⟨fun a b => Nat.le_total b.createdAt a.createdAt⟩

instance : IsTrans MemoryRow memDescRel :=
  ⟨fun _ _ _ h1 h2 => Nat.le_trans h2 h1⟩

/-- `DatabaseStorage.getUserAiMemory`: the rows of the user, newest first,
truncated to the ten most recent. -/
def getUserAiMemory (userId : String) (tbl : List MemoryRow) : List MemoryRow :=
  ((tbl.filter (fun m => m.userId == userId)).insertionSort memDescRel).take 10

/-- A row of the singleton `aiSettings` table; only the column the chat path
reads is modelled. -/
structure AiSettingsRow where
  geminiEnabled : Bool
deriving DecidableEq

/-- The row inserted by the lazy-create branch: `{ geminiEnabled: true }`. -/
def defaultAiSettingsRow : AiSettingsRow := ⟨true⟩

/-- `DatabaseStorage.getAiSettings`: read the first row; if the table is
empty, insert the fail-open default and return it.  The returned pair is
(returned row, table after the call). -/
def getAiSettings : List AiSettingsRow → AiSettingsRow × List AiSettingsRow
  | [] => (defaultAiSettingsRow, [defaultAiSettingsRow])
  | s :: ss => (s, s :: ss)

/-! ## `src/server/routes.ts` — the `POST /api/ai/chat` handler -/

/-- The four exits of the chat handler. -/
inductive ChatResult where
  | ok (response : String)
  | validationError
  | disabled
  | generationError (message : String)
deriving DecidableEq

/-- One handler invocation together with its observable side effects:
the rows written to the memory store, the prompts sent to the generative
backend, and the number of FAQ-store reads performed. -/
structure ChatOutcome where
  result : ChatResult
  writes : List InsertMemoryRow
  promptsSent : List String
  faqReads : Nat

/-- The collaborators a chat invocation can observe: the settings table, the
memory table, the FAQ knowledge table, and the backend outcome. -/
structure ChatDeps where
  aiSettingsTable : List AiSettingsRow
  memoryTable : List MemoryRow
  faqTable : List (String × String)
  backend : Except Unit (Option String)

/-- The `POST /api/ai/chat` handler (the orchestrator the specification calls
`handleMessage`).  `message` is the raw `req.body.message`: `none` when the
field is absent.  Validation (`!message || typeof message !== "string" ||
message.trim().length === 0`) runs first, then the availability check, then
memory load, composition, generation and the single memory write. -/
def handleMessage (userId : String) (message : Option Json)
    (deps : ChatDeps) : ChatOutcome :=
  match message with
  | some (Json.str s) =>
    if strTrim s = "" then ⟨.validationError, [], [], 0⟩
    else
      let settings := (getAiSettings deps.aiSettingsTable).1
      if settings.geminiEnabled = false then ⟨.disabled, [], [], 0⟩
      else
        let history := (getUserAiMemory userId deps.memoryTable).reverse.map
          (fun m => (m.message, m.aiResponse))
        let ctx : ConversationContext := ⟨userId, s, history, none⟩
        let prompt := promptOfContext ctx
        match generateAIResponse ctx deps.backend with
        | .error e => ⟨.generationError e, [], [prompt], 0⟩
        | .ok aiResponse =>
          ⟨.ok aiResponse, [⟨userId, s, aiResponse⟩], [prompt], 0⟩
  | _ => ⟨.validationError, [], [], 0⟩

/-! ## Derived views of the handler -/

/-- The validation predicate of the handler guard
(`!message || typeof message !== "string" || message.trim().length === 0`
rejects; this is its negation). -/
def messageValid : Option Json → Bool
  | some (Json.str s) => !(strTrim s == "")
  | _ => false

/-- The conversation history the handler hands to the composer: the loaded
memory rows reversed to oldest-first and projected to message/response. -/
def loadedHistory (userId : String) (deps : ChatDeps) : List (String × String) :=
  (getUserAiMemory userId deps.memoryTable).reverse.map
    (fun m => (m.message, m.aiResponse))

/-- The prompt a successful-validation invocation sends to the backend. -/
def chatPromptOf (userId s : String) (deps : ChatDeps) : String :=
  promptOfContext ⟨userId, s, loadedHistory userId deps, none⟩

/-! ## Concrete witness data -/

/-- A concrete seven-turn history. -/
def historyWitness7 : List (String × String) :=
  [("m1", "r1"), ("m2", "r2"), ("m3", "r3"), ("m4", "r4"), ("m5", "r5"),
   ("m6", "r6"), ("m7", "r7")]

/-- Concrete dependencies: gate on, empty stores, a succeeding backend. -/
def depsSuccessW : ChatDeps :=
  ⟨[⟨true⟩], [], [], .ok (some "Go to Settings > Security.")⟩

/-- Concrete dependencies: gate on, empty stores, a failing backend. -/
def depsFailW : ChatDeps := ⟨[⟨true⟩], [], [], .error ()⟩

/-- Concrete dependencies with a non-empty FAQ store and a succeeding
backend. -/
def depsFaqW : ChatDeps := ⟨[⟨true⟩], [], [("Q1", "A1")], .ok (some "ok")⟩

/-- A concrete memory table holding rows of two users. -/
def memTableW : List MemoryRow :=
  [⟨"u", "m1", "r1", 3⟩, ⟨"v", "x", "y", 9⟩, ⟨"u", "m2", "r2", 7⟩]

/-- Concrete dependencies using `memTableW`, gate on, succeeding backend. -/
def depsMemW : ChatDeps := ⟨[⟨true⟩], memTableW, [], .ok (some "ok")⟩

/-! ## Handler shape lemmas -/

theorem handleMessage_invalid (userId : String) (msg : Option Json)
    (deps : ChatDeps) (h : messageValid msg = false) :
    handleMessage userId msg deps = ⟨.validationError, [], [], 0⟩ := by
  match msg with
  | none => rfl
  | some Json.null => rfl
  | some (Json.bool b) => rfl
  | some (Json.num m e) => rfl
  | some (Json.str s) =>
    simp only [messageValid, Bool.not_eq_false', beq_iff_eq] at h
    simp only [handleMessage, if_pos h]
  | some (Json.arr xs) => rfl
  | some (Json.obj fs) => rfl

theorem handleMessage_disabled (userId s : String) (deps : ChatDeps)
    (hs : strTrim s ≠ "")
    (hd : (getAiSettings deps.aiSettingsTable).1.geminiEnabled = false) :
    handleMessage userId (some (Json.str s)) deps = ⟨.disabled, [], [], 0⟩ := by
  simp only [handleMessage, if_neg hs, hd, if_pos trivial]

theorem handleMessage_genError (userId s : String) (deps : ChatDeps)
    (hs : strTrim s ≠ "")
    (hen : (getAiSettings deps.aiSettingsTable).1.geminiEnabled = true)
    (hb : deps.backend = .error ()) :
    handleMessage userId (some (Json.str s)) deps =
      ⟨.generationError generationErrorMsg, [], [chatPromptOf userId s deps], 0⟩ := by
  simp only [handleMessage, if_neg hs, hen, generateAIResponse, hb]
  rfl

theorem handleMessage_success (userId s : String) (deps : ChatDeps)
    (t : Option String) (hs : strTrim s ≠ "")
    (hen : (getAiSettings deps.aiSettingsTable).1.geminiEnabled = true)
    (hb : deps.backend = .ok t) :
    handleMessage userId (some (Json.str s)) deps =
      ⟨.ok (jsOrElseStr t generationFallback),
       [⟨userId, s, jsOrElseStr t generationFallback⟩],
       [chatPromptOf userId s deps], 0⟩ := by
  simp only [handleMessage, if_neg hs, hen, generateAIResponse, hb]
  rfl

/-! ## Claim theorems -/

/-- C7: reading the availability flag when no settings record exists creates
one with `geminiEnabled = true` (fail-open default) and returns it; reading
when a record exists returns that record with the store unchanged; a read
always yields exactly one logical instance (the head row) and never returns
absent (the function is total in `AiSettingsRow`). -/
theorem getAiSettings_lazy_create_fail_open :
    (getAiSettings [] = (defaultAiSettingsRow, [defaultAiSettingsRow])
      ∧ defaultAiSettingsRow.geminiEnabled = true) ∧
    (∀ (s : AiSettingsRow) (ss : List AiSettingsRow),
      getAiSettings (s :: ss) = (s, s :: ss)) ∧
    (∀ tbl : List AiSettingsRow,
      (getAiSettings tbl).2 ≠ [] ∧
      ((getAiSettings tbl).2).head? = some (getAiSettings tbl).1) := by
  refine ⟨⟨rfl, rfl⟩, fun s ss => rfl, fun tbl => ?_⟩
  cases tbl <;> exact ⟨by simp [getAiSettings], rfl⟩

/-- C5: the conversation-history block renders, for a non-empty history,
exactly the suffix of the `min 5 (length)` most recent turns in their original
(chronological, oldest-first) order, each as `User: ...` / `Assistant: ...`,
excluding all older turns (they form the discarded prefix); for an empty
history it is the explicit "(No previous conversation)" marker. -/
theorem historyBlock_last_five (history : List (String × String)) :
    (history = [] → historyBlock history = "(No previous conversation)\n\n") ∧
    (history ≠ [] →
      history = history.take (history.length - 5) ++ jsSliceLast 5 history ∧
      (jsSliceLast 5 history).length = min 5 history.length ∧
      historyBlock history
        = String.join ((jsSliceLast 5 history).map renderTurn)) := by
  constructor
  · rintro rfl; rfl
  · intro h
    refine ⟨(List.take_append_drop _ _).symm, ?_, ?_⟩
    · simp only [jsSliceLast, List.length_drop]
      omega
    · simp only [historyBlock, if_pos (List.length_pos.mpr h)]

/-- C5 witness: a concrete history of length 7 keeps exactly its last five
turns, in order, after the two oldest are dropped. -/
theorem historyBlock_last_five_witness :
    historyWitness7 = historyWitness7.take (historyWitness7.length - 5)
        ++ jsSliceLast 5 historyWitness7 ∧
    (jsSliceLast 5 historyWitness7).length = min 5 historyWitness7.length ∧
    historyBlock historyWitness7
      = String.join ((jsSliceLast 5 historyWitness7).map renderTurn) :=
  (historyBlock_last_five historyWitness7).2 (by decide)

/-- C10: when the backend call itself fails, `analyzePdfContent` raises the
opaque extraction error instead of degrading to `[]`, while for any
successfully returned text it never raises (parse and shape failures degrade
to `.ok []`); `generateFaqFromConversation` by contrast swallows its backend
failure into `none`. -/
theorem backend_failure_asymmetry (url q a : String) (t : Option String) :
    analyzePdfContent url (.error ()) = .error pdfErrorMsg ∧
    (∃ l, analyzePdfContent url (.ok t) = .ok l) ∧
    generateFaqFromConversation q a (.error ()) = none := by
  refine ⟨rfl, ?_, rfl⟩
  simp only [analyzePdfContent]
  split
  · exact ⟨[], rfl⟩
  · exact ⟨_, rfl⟩
  · exact ⟨[], rfl⟩

/-- C8: for every text the backend returns, `analyzePdfContent` never raises:
the text is stripped of code-fence markers and JSON-parsed; a parse failure or
a non-array parse result yields `[]`, and the code-fenced JSON array
`[{"question":"Q1","answer":"A1"}]` yields the corresponding single
question/answer object. -/
theorem analyzePdfContent_tolerates_malformed (url : String) (t : Option String) :
    (∃ l, analyzePdfContent url (.ok t) = .ok l) ∧
    (jsonParseChars (cleanJsonChars (jsOrElseStr t "[]").data) = none →
      analyzePdfContent url (.ok t) = .ok []) ∧
    (∀ v, jsonParseChars (cleanJsonChars (jsOrElseStr t "[]").data) = some v →
      (∀ xs, v ≠ Json.arr xs) → analyzePdfContent url (.ok t) = .ok []) ∧
    analyzePdfContent url
        (.ok (some "```json\n[\x7b\"question\":\"Q1\",\"answer\":\"A1\"\x7d]\n```"))
      = .ok [Json.obj [("question", Json.str "Q1"), ("answer", Json.str "A1")]] := by
  refine ⟨?_, ?_, ?_, rfl⟩
  · simp only [analyzePdfContent]
    split
    · exact ⟨[], rfl⟩
    · exact ⟨_, rfl⟩
    · exact ⟨[], rfl⟩
  · intro h
    simp only [analyzePdfContent, h]
  · intro v hv hnarr
    simp only [analyzePdfContent, hv]

/-- C8 witness: the non-JSON text `"not json"` and the non-array text `"true"`
both degrade to `[]`, by the two conditional parts of the theorem. -/
theorem analyzePdfContent_tolerates_malformed_witness :
    analyzePdfContent "doc.pdf" (.ok (some "not json")) = .ok [] ∧
    analyzePdfContent "doc.pdf" (.ok (some "true")) = .ok [] :=
  ⟨(analyzePdfContent_tolerates_malformed "doc.pdf" (some "not json")).2.1 rfl,
   (analyzePdfContent_tolerates_malformed "doc.pdf" (some "true")).2.2.1
     (Json.bool true) rfl (fun _ h => Json.noConfusion h)⟩

/-- C9 counterexample: the backend reply `"null"` parses successfully to JSON
`null`, whose `shouldSave` field is not `false`, yet the learner returns
`none` (the `result.shouldSave` access on `null` throws a `TypeError` that the
inner `catch` swallows) instead of the question/answer pair the claim
requires. -/
theorem considerForLearning_null_counterexample :
    generateFaqFromConversation "Q0" "A0" (.ok (some "null")) = none ∧
    jsonParseChars (cleanJsonChars (jsOrElseStr (some "null") learnerDefaultText).data)
      = some Json.null ∧
    jsFieldIsFalse Json.null "shouldSave" = false :=
  ⟨rfl, rfl, rfl⟩

/-- C9 (amended): `considerForLearning` returns `null` exactly when the
backend call fails, the reply text does not parse as JSON, the reply parses to
JSON `null` (the property access on `null` throws and is handled like a parse
failure), or the parsed reply's `shouldSave` field equals `false`; in every
other case it returns the question/answer pair whose fields fall back to the
verbatim inputs when the refined fields are missing (or falsy). -/
theorem considerForLearning_characterization (q a : String) :
    generateFaqFromConversation q a (.error ()) = none ∧
    (∀ t, jsonParseChars (cleanJsonChars (jsOrElseStr t learnerDefaultText).data) = none →
        generateFaqFromConversation q a (.ok t) = none) ∧
    (∀ t, jsonParseChars (cleanJsonChars (jsOrElseStr t learnerDefaultText).data)
          = some Json.null →
        generateFaqFromConversation q a (.ok t) = none) ∧
    (∀ t v, jsonParseChars (cleanJsonChars (jsOrElseStr t learnerDefaultText).data)
          = some v →
        jsFieldIsFalse v "shouldSave" = true →
        generateFaqFromConversation q a (.ok t) = none) ∧
    (∀ t v, jsonParseChars (cleanJsonChars (jsOrElseStr t learnerDefaultText).data)
          = some v →
        v ≠ Json.null →
        jsFieldIsFalse v "shouldSave" = false →
        generateFaqFromConversation q a (.ok t)
          = some (jsTruthyOrElse (jsGetField v "question") (Json.str q),
                  jsTruthyOrElse (jsGetField v "answer") (Json.str a))) := by
  refine ⟨rfl, ?_, ?_, ?_, ?_⟩
  · intro t h
    simp only [generateFaqFromConversation, h]
  · intro t h
    simp only [generateFaqFromConversation, h]
  · intro t v hv hsv
    rcases v with _ | b | ⟨m, e⟩ | s | xs | fs
    · exact absurd hsv (by simp [jsFieldIsFalse, jsGetField])
    all_goals simp only [generateFaqFromConversation, hv, hsv, if_true, reduceCtorEq,
      not_false_eq_true]
  · intro t v hv hnull hsv
    rcases v with _ | b | ⟨m, e⟩ | s | xs | fs
    · exact absurd rfl hnull
    all_goals simp only [generateFaqFromConversation, hv, hsv, Bool.false_eq_true,
      if_false, reduceCtorEq, not_false_eq_true]

/-- C9 witness: a refined pair is returned verbatim, a reply missing the
`question` field falls back to the original question, a `shouldSave: false`
sentinel and an unparsable reply both yield `none`. -/
theorem considerForLearning_characterization_witness :
    generateFaqFromConversation "Q" "A"
        (.ok (some "\x7b\"question\":\"Q2\",\"answer\":\"A2\"\x7d"))
      = some (Json.str "Q2", Json.str "A2") ∧
    generateFaqFromConversation "Q" "A" (.ok (some "\x7b\"answer\":\"A2\"\x7d"))
      = some (Json.str "Q", Json.str "A2") ∧
    generateFaqFromConversation "Q" "A" (.ok (some "\x7b \"shouldSave\": false \x7d"))
      = none ∧
    generateFaqFromConversation "Q" "A" (.ok (some "not json")) = none := by
  have h := considerForLearning_characterization "Q" "A"
  refine ⟨?_, ?_, ?_, h.2.1 (some "not json") rfl⟩
  · exact h.2.2.2.2 (some "\x7b\"question\":\"Q2\",\"answer\":\"A2\"\x7d")
      (Json.obj [("question", Json.str "Q2"), ("answer", Json.str "A2")]) rfl
      (fun hh => Json.noConfusion hh) rfl
  · exact h.2.2.2.2 (some "\x7b\"answer\":\"A2\"\x7d")
      (Json.obj [("answer", Json.str "A2")]) rfl
      (fun hh => Json.noConfusion hh) rfl
  · exact h.2.2.2.1 (some "\x7b \"shouldSave\": false \x7d")
      (Json.obj [("shouldSave", Json.bool false)]) rfl rfl

/-- Inversion of the validation guard. -/
theorem messageValid_true_elim {msg : Option Json} (h : messageValid msg = true) :
    ∃ s, msg = some (Json.str s) ∧ strTrim s ≠ "" := by
  match msg with
  | some (Json.str s) => exact ⟨s, rfl, by simpa [messageValid] using h⟩
  | none => simp [messageValid] at h
  | some Json.null => simp [messageValid] at h
  | some (Json.bool _) => simp [messageValid] at h
  | some (Json.num _ _) => simp [messageValid] at h
  | some (Json.arr _) => simp [messageValid] at h
  | some (Json.obj _) => simp [messageValid] at h

/-- C1: a chat invocation persists exactly one MemoryTurn when it succeeds —
the turn pairing the user's message with the returned response — and zero
MemoryTurns on every failure path; in particular the memory store is left
unchanged when the generation step fails. -/
theorem handleMessage_persists_one_turn_iff_success (userId : String)
    (msg : Option Json) (deps : ChatDeps) :
    (∀ r, (handleMessage userId msg deps).result = ChatResult.ok r →
      (handleMessage userId msg deps).writes.length = 1) ∧
    (∀ s r, msg = some (Json.str s) →
      (handleMessage userId msg deps).result = ChatResult.ok r →
      (handleMessage userId msg deps).writes = [⟨userId, s, r⟩]) ∧
    ((∀ r, (handleMessage userId msg deps).result ≠ ChatResult.ok r) →
      (handleMessage userId msg deps).writes = []) ∧
    (deps.backend = .error () →
      (handleMessage userId msg deps).writes = []) := by
  rcases hval : messageValid msg with _ | _
  · rw [handleMessage_invalid userId msg deps hval]
    exact ⟨fun r h => ChatResult.noConfusion h,
      fun s r hm h => ChatResult.noConfusion h, fun _ => rfl, fun _ => rfl⟩
  · obtain ⟨s, rfl, hs⟩ := messageValid_true_elim hval
    rcases hg : (getAiSettings deps.aiSettingsTable).1.geminiEnabled with _ | _
    · rw [handleMessage_disabled userId s deps hs hg]
      exact ⟨fun r h => ChatResult.noConfusion h,
        fun s' r hm h => ChatResult.noConfusion h, fun _ => rfl, fun _ => rfl⟩
    · cases hb : deps.backend with
      | error u =>
        cases u
        rw [handleMessage_genError userId s deps hs hg hb]
        exact ⟨fun r h => ChatResult.noConfusion h,
          fun s' r hm h => ChatResult.noConfusion h, fun _ => rfl, fun _ => rfl⟩
      | ok t =>
        rw [handleMessage_success userId s deps t hs hg hb]
        refine ⟨fun r h => rfl, ?_, ?_, ?_⟩
        · intro s' r hm h
          injection hm with hm1
          injection hm1 with hm2
          subst hm2
          injection h with h1
          subst h1
          rfl
        · intro hall
          exact absurd rfl (hall (jsOrElseStr t generationFallback))
        · exact fun hb' => Except.noConfusion hb'

/-- C1 witness: one concrete successful call writes exactly its one turn; one
concrete failed generation writes nothing. -/
theorem handleMessage_persists_one_turn_iff_success_witness :
    (handleMessage "u" (some (Json.str "hi")) depsSuccessW).writes
      = [⟨"u", "hi", "Go to Settings > Security."⟩] ∧
    (handleMessage "u" (some (Json.str "hi")) depsFailW).writes = [] :=
  ⟨(handleMessage_persists_one_turn_iff_success "u" (some (Json.str "hi"))
      depsSuccessW).2.1 "hi" "Go to Settings > Security." rfl rfl,
   (handleMessage_persists_one_turn_iff_success "u" (some (Json.str "hi"))
      depsFailW).2.2.2 rfl⟩

/-- C3 counterexample: with the gate disabled, an empty-message call is
rejected with the ValidationError exit, not the AiDisabledError one —
validation precedes the gate check in the handler. -/
theorem gate_check_not_first_counterexample :
    (handleMessage "u" (some (Json.str "")) ⟨[⟨false⟩], [], [], .ok none⟩).result
      = ChatResult.validationError ∧
    (getAiSettings [(⟨false⟩ : AiSettingsRow)]).1.geminiEnabled = false ∧
    ChatResult.validationError ≠ ChatResult.disabled :=
  ⟨rfl, rfl, by decide⟩

/-- C3 (amended): message validation runs before the gate check: a call that
fails validation is rejected with ValidationError regardless of the gate,
and a call that passes validation is rejected with AiDisabledError whenever
the Availability Gate reports disabled. -/
theorem handleMessage_validation_precedes_gate (userId : String)
    (msg : Option Json) (deps : ChatDeps) :
    (messageValid msg = false →
      (handleMessage userId msg deps).result = ChatResult.validationError) ∧
    (∀ s, msg = some (Json.str s) → messageValid msg = true →
      (getAiSettings deps.aiSettingsTable).1.geminiEnabled = false →
      (handleMessage userId msg deps).result = ChatResult.disabled) := by
  constructor
  · intro h
    rw [handleMessage_invalid userId msg deps h]
  · rintro s rfl hv hd
    have hs : strTrim s ≠ "" := by simpa [messageValid] using hv
    rw [handleMessage_disabled userId s deps hs hd]

/-- C3 witness: a blank message is rejected as invalid even with the gate off;
a non-blank message is rejected as disabled when the gate is off. -/
theorem handleMessage_validation_precedes_gate_witness :
    (handleMessage "u" (some (Json.str " ")) ⟨[⟨false⟩], [], [], .ok none⟩).result
      = ChatResult.validationError ∧
    (handleMessage "u" (some (Json.str "hi")) ⟨[⟨false⟩], [], [], .ok none⟩).result
      = ChatResult.disabled :=
  ⟨(handleMessage_validation_precedes_gate "u" (some (Json.str " "))
      ⟨[⟨false⟩], [], [], .ok none⟩).1 (by decide),
   (handleMessage_validation_precedes_gate "u" (some (Json.str "hi"))
      ⟨[⟨false⟩], [], [], .ok none⟩).2 "hi" rfl (by decide) rfl⟩

/-- C4 counterexample: the whitespace-only message `" "` is a non-empty
string, yet with the gate disabled the call exits with ValidationError, not
AiDisabledError (trim-validation runs first). -/
theorem disabled_gate_blank_message_counterexample :
    handleMessage "u" (some (Json.str " ")) ⟨[⟨false⟩], [], [], .ok none⟩
      = ⟨ChatResult.validationError, [], [], 0⟩ ∧
    " " ≠ "" ∧
    ChatResult.validationError ≠ ChatResult.disabled :=
  ⟨rfl, by decide, by decide⟩

/-- C4 (amended): for every string message that is non-empty after trimming,
a disabled gate makes the call exit with AiDisabledError, send zero prompts
to the backend, and write no MemoryTurn. -/
theorem handleMessage_disabled_no_backend_call (userId s : String)
    (deps : ChatDeps) (hs : strTrim s ≠ "")
    (hd : (getAiSettings deps.aiSettingsTable).1.geminiEnabled = false) :
    (handleMessage userId (some (Json.str s)) deps).result = ChatResult.disabled ∧
    (handleMessage userId (some (Json.str s)) deps).promptsSent = [] ∧
    (handleMessage userId (some (Json.str s)) deps).writes = [] := by
  rw [handleMessage_disabled userId s deps hs hd]
  exact ⟨rfl, rfl, rfl⟩

/-- C4 witness: a concrete disabled-gate call is rejected with zero backend
prompts and zero writes. -/
theorem handleMessage_disabled_no_backend_call_witness :
    (handleMessage "u" (some (Json.str "hi"))
        ⟨[⟨false⟩], [], [], .ok none⟩).result = ChatResult.disabled ∧
    (handleMessage "u" (some (Json.str "hi"))
        ⟨[⟨false⟩], [], [], .ok none⟩).promptsSent = [] ∧
    (handleMessage "u" (some (Json.str "hi"))
        ⟨[⟨false⟩], [], [], .ok none⟩).writes = [] :=
  handleMessage_disabled_no_backend_call "u" "hi" ⟨[⟨false⟩], [], [], .ok none⟩
    (by decide) rfl

/-- C2 counterexample: a successful call made while the FAQ store holds one
entry sends a prompt that contains no FAQ knowledge block at all (and performs
zero FAQ-store reads), even though the composer would emit the block had it
been given the FAQ set. -/
theorem faq_not_in_prompt_counterexample :
    (handleMessage "u" (some (Json.str "hi")) depsFaqW).result = ChatResult.ok "ok" ∧
    depsFaqW.faqTable = [("Q1", "A1")] ∧
    (handleMessage "u" (some (Json.str "hi")) depsFaqW).faqReads = 0 ∧
    (handleMessage "u" (some (Json.str "hi")) depsFaqW).promptsSent
      = [chatPromptOf "u" "hi" depsFaqW] ∧
    hasSubstring (chatPromptOf "u" "hi" depsFaqW) "FAQ Knowledge Base" = false ∧
    hasSubstring (chatPromptOf "u" "hi" depsFaqW) "Q1" = false ∧
    hasSubstring (promptOfContext ⟨"u", "hi", [], some [("Q1", "A1")]⟩)
      "FAQ Knowledge Base" = true := by
  refine ⟨rfl, rfl, rfl, rfl, ?_, ?_, ?_⟩ <;> decide

/-- C2 (amended): `handleMessage` never reads the FAQ store (zero
`getFaqKnowledge` calls, and its outcome is independent of the FAQ table); on
the generation path it delegates composition with the loaded history and the
new message but with no FAQ set, so the prompt is composed with
`faqKnowledge` absent. -/
theorem handleMessage_ignores_faq_store (userId : String) (msg : Option Json)
    (deps : ChatDeps) :
    (handleMessage userId msg deps).faqReads = 0 ∧
    (∀ faqs, handleMessage userId msg
        ⟨deps.aiSettingsTable, deps.memoryTable, faqs, deps.backend⟩
      = handleMessage userId msg deps) ∧
    (∀ s, msg = some (Json.str s) → strTrim s ≠ "" →
      (getAiSettings deps.aiSettingsTable).1.geminiEnabled = true →
      (handleMessage userId msg deps).promptsSent = [chatPromptOf userId s deps] ∧
      chatPromptOf userId s deps
        = promptOfContext ⟨userId, s, loadedHistory userId deps, none⟩) := by
  refine ⟨?_, fun faqs => rfl, ?_⟩
  · rcases hval : messageValid msg with _ | _
    · rw [handleMessage_invalid userId msg deps hval]
    · obtain ⟨s, rfl, hs⟩ := messageValid_true_elim hval
      rcases hg : (getAiSettings deps.aiSettingsTable).1.geminiEnabled with _ | _
      · rw [handleMessage_disabled userId s deps hs hg]
      · cases hb : deps.backend with
        | error u =>
          cases u
          rw [handleMessage_genError userId s deps hs hg hb]
        | ok t =>
          rw [handleMessage_success userId s deps t hs hg hb]
  · rintro s rfl hs hg
    cases hb : deps.backend with
    | error u =>
      cases u
      rw [handleMessage_genError userId s deps hs hg hb]
      exact ⟨rfl, rfl⟩
    | ok t =>
      rw [handleMessage_success userId s deps t hs hg hb]
      exact ⟨rfl, rfl⟩

/-- C2 witness: a concrete invocation is unchanged by swapping the FAQ store
content, and its one prompt is the FAQ-free composition. -/
theorem handleMessage_ignores_faq_store_witness :
    handleMessage "u" (some (Json.str "hi"))
        ⟨[⟨true⟩], [], [("Q1", "A1")], .ok (some "ok")⟩
      = handleMessage "u" (some (Json.str "hi"))
          ⟨[⟨true⟩], [], [], .ok (some "ok")⟩ ∧
    (handleMessage "u" (some (Json.str "hi"))
        ⟨[⟨true⟩], [], [], .ok (some "ok")⟩).promptsSent
      = [chatPromptOf "u" "hi" ⟨[⟨true⟩], [], [], .ok (some "ok")⟩] :=
  ⟨(handleMessage_ignores_faq_store "u" (some (Json.str "hi"))
      ⟨[⟨true⟩], [], [], .ok (some "ok")⟩).2.1 [("Q1", "A1")],
   ((handleMessage_ignores_faq_store "u" (some (Json.str "hi"))
      ⟨[⟨true⟩], [], [], .ok (some "ok")⟩).2.2 "hi" rfl (by decide) rfl).1⟩

/-- C6: the memory load returns at most ten rows, sorted newest-first, all
belonging to the requesting user and present in the table; every row it
drops beyond the ten is at least as old as every row it keeps; and the
handler hands the composer exactly the loaded rows reversed to oldest-first
(projected to message/response pairs). -/
theorem memory_load_spec (userId s : String) (deps : ChatDeps)
    (hs : strTrim s ≠ "")
    (hen : (getAiSettings deps.aiSettingsTable).1.geminiEnabled = true) :
    (getUserAiMemory userId deps.memoryTable).length ≤ 10 ∧
    List.Sorted memDescRel (getUserAiMemory userId deps.memoryTable) ∧
    (∀ m ∈ getUserAiMemory userId deps.memoryTable,
      m.userId = userId ∧ m ∈ deps.memoryTable) ∧
    (∀ x ∈ getUserAiMemory userId deps.memoryTable,
      ∀ y ∈ ((deps.memoryTable.filter (fun m => m.userId == userId)).insertionSort
          memDescRel).drop 10, y.createdAt ≤ x.createdAt) ∧
    (handleMessage userId (some (Json.str s)) deps).promptsSent
      = [promptOfContext ⟨userId, s,
          (getUserAiMemory userId deps.memoryTable).reverse.map
            (fun m => (m.message, m.aiResponse)), none⟩] := by
  have hsorted : List.Sorted memDescRel
      ((deps.memoryTable.filter (fun m => m.userId == userId)).insertionSort
        memDescRel) :=
    List.sorted_insertionSort memDescRel _
  refine ⟨List.length_take_le _ _, hsorted.sublist (List.take_sublist _ _), ?_, ?_, ?_⟩
  · intro m hm
    have hmL := List.mem_of_mem_take hm
    have hmF := (List.mem_insertionSort memDescRel).mp hmL
    obtain ⟨htbl, hbeq⟩ := List.mem_filter.mp hmF
    exact ⟨by simpa using hbeq, htbl⟩
  · intro x hx y hy
    have hp : List.Pairwise memDescRel
        (((deps.memoryTable.filter (fun m => m.userId == userId)).insertionSort
            memDescRel).take 10 ++
         ((deps.memoryTable.filter (fun m => m.userId == userId)).insertionSort
            memDescRel).drop 10) := by
      rw [List.take_append_drop]
      exact hsorted
    exact (List.pairwise_append.mp hp).2.2 x hx y hy
  · cases hb : deps.backend with
    | error u =>
      cases u
      rw [handleMessage_genError userId s deps hs hen hb]
      rfl
    | ok t =>
      rw [handleMessage_success userId s deps t hs hen hb]
      rfl

/-- C6 witness: on a concrete table the load is bounded, sorted newest-first,
and the handler's single prompt is composed from the reversed load. -/
theorem memory_load_spec_witness :
    (getUserAiMemory "u" depsMemW.memoryTable).length ≤ 10 ∧
    List.Sorted memDescRel (getUserAiMemory "u" depsMemW.memoryTable) ∧
    (handleMessage "u" (some (Json.str "m")) depsMemW).promptsSent
      = [promptOfContext ⟨"u", "m",
          (getUserAiMemory "u" depsMemW.memoryTable).reverse.map
            (fun m => (m.message, m.aiResponse)), none⟩] := by
  have h := memory_load_spec "u" "m" depsMemW (by decide) rfl
  exact ⟨h.1, h.2.1, h.2.2.2.2⟩

/-- C7 witness: reading with a present record returns it unchanged, and the
empty-table read returns the fail-open default. -/
theorem getAiSettings_lazy_create_fail_open_witness :
    getAiSettings [(⟨false⟩ : AiSettingsRow)] = (⟨false⟩, [⟨false⟩]) ∧
    getAiSettings [] = (defaultAiSettingsRow, [defaultAiSettingsRow]) :=
  ⟨getAiSettings_lazy_create_fail_open.2.1 ⟨false⟩ [],
   getAiSettings_lazy_create_fail_open.1.1⟩

/-- C10 witness: a concrete backend failure raises in the extractor and is
swallowed by the learner. -/
theorem backend_failure_asymmetry_witness :
    analyzePdfContent "doc.pdf" (.error ()) = .error pdfErrorMsg ∧
    generateFaqFromConversation "q" "a" (.error ()) = none :=
  ⟨(backend_failure_asymmetry "doc.pdf" "q" "a" none).1,
   (backend_failure_asymmetry "doc.pdf" "q" "a" none).2.2⟩
